import Mathlib

/-!
Verification of the stockflow case-study repository: a shallow embedding of
its two HTTP handlers, `create_product` (src/fixedApiEnd.py) and
`get_low_stock_alerts` (src/low_stock_alert_APIEndpoint.py), together with
theorems settling the specification's claims about them.

Conventions of the embedding:
* JSON request values are the inductive `JsonVal`; a request body maps each
  required key to `some v` when the key is present (`v` may be `jnull`).
* Python `float(x)` / `int(x)` become the partial coercions `pyFloat` /
  `pyInt` (exact rational arithmetic stands in for Python floats).
* The database is explicit state (`DB`); the ORM session's add/flush/commit/
  rollback calls are recorded as an event trace so ordering claims can be
  stated.  Persistence-layer failures that the sequential model cannot
  produce itself (a uniqueness violation from a concurrent insert, or any
  other backend failure at commit time) are injected through a `DBFault`
  parameter.
-/

namespace Stockflow

/-- A JSON value as the handlers consume it: null, boolean, number (exact
rational in place of a Python int/float) or string. -/
inductive JsonVal where
  | jnull
  | jbool (b : Bool)
  | jnum (q : ℚ)
  | jstr (s : String)
deriving DecidableEq, Repr

/-- Digits of a decimal literal to a natural number; `none` when the list is
empty or holds a non-digit. -/
def digitsToNat : List Char → Option Nat
  | [] => none
  | cs => cs.foldlM (fun acc c => if c.isDigit then some (acc * 10 + (c.toNat - 48)) else none) 0

/-- Python `float(s)` on a string, restricted to plain decimal literals: an
optional sign, digits, an optional fractional part (the source relies on
`float` only to accept numeric strings and reject everything else). -/
def parseFloatString (s : String) : Option ℚ :=
  let cs := s.trim.toList
  let sgn : ℚ × List Char :=
    match cs with
    | '-' :: rest => (-1, rest)
    | '+' :: rest => (1, rest)
    | rest => (1, rest)
  let ds := sgn.2
  let intPart := ds.takeWhile Char.isDigit
  match ds.drop intPart.length with
  | [] => (digitsToNat intPart).map (fun n => sgn.1 * (n : ℚ))
  | '.' :: fracPart =>
      if fracPart.all Char.isDigit && !(intPart.isEmpty && fracPart.isEmpty) then
        let i : Nat := (digitsToNat intPart).getD 0
        let f : Nat := (digitsToNat fracPart).getD 0
        some (sgn.1 * ((i : ℚ) + (f : ℚ) / ((10 : ℚ) ^ fracPart.length)))
      else none
  | _ => none

/-- Python `int(s)` on a string: an optional sign followed by digits only. -/
def parseIntString (s : String) : Option Int :=
  match s.trim.toList with
  | '-' :: rest => (digitsToNat rest).map (fun n => -(n : Int))
  | '+' :: rest => (digitsToNat rest).map (fun n => (n : Int))
  | rest => (digitsToNat rest).map (fun n => (n : Int))

/-- Truncation toward zero: the behaviour of Python `int(...)` on a number. -/
def ratTrunc (q : ℚ) : Int := if 0 ≤ q then ⌊q⌋ else ⌈q⌉

/-- Python `float(x)` on a JSON value: numbers and booleans coerce, numeric
strings parse, `None` and non-numeric strings raise (`none`). -/
def pyFloat : JsonVal → Option ℚ
  | .jnum q => some q
  | .jbool b => some (if b then 1 else 0)
  | .jstr s => parseFloatString s
  | .jnull => none

/-- Python `int(x)` on a JSON value: numbers truncate toward zero, booleans
coerce, integer strings parse, `None` and other strings raise (`none`). -/
def pyInt : JsonVal → Option Int
  | .jnum q => some (ratTrunc q)
  | .jbool b => some (if b then 1 else 0)
  | .jstr s => parseIntString s
  | .jnull => none

/-! ## The creation handler (src/fixedApiEnd.py) -/

/-- The JSON body of a `POST /api/products` request: each required key maps
to `some v` when present in the dict (the value `v` may be `jnull`). -/
structure ReqBody where
  name : Option JsonVal
  sku : Option JsonVal
  price : Option JsonVal
  warehouse_id : Option JsonVal
  initial_quantity : Option JsonVal
deriving DecidableEq, Repr

/-- A persisted Product row as `create_product` writes it: `name`, `sku` and
`warehouse_id` are stored as the raw request values (the source does not
coerce them); `price` is the coerced float. -/
structure Product where
  id : Nat
  name : JsonVal
  sku : JsonVal
  price : ℚ
  warehouse_id : JsonVal
deriving DecidableEq, Repr

/-- A persisted Inventory row as `create_product` writes it. -/
structure Inventory where
  product_id : Nat
  warehouse_id : JsonVal
  quantity : Int
deriving DecidableEq, Repr

/-- The committed database state seen by the creation handler. -/
structure DB where
  products : List Product
  inventories : List Inventory
deriving DecidableEq, Repr

/-- The response bodies the handler can return, one constructor per
`jsonify` payload in the source. -/
inductive RespBody where
  | missingFields
  | skuConflict (sku : JsonVal)
  | invalidNumber
  | integrityConflict
  | unexpectedError
  | created (product_id : Nat)
deriving DecidableEq, Repr

/-- An HTTP response: status code plus body. -/
structure Response where
  status : Nat
  body : RespBody
deriving DecidableEq, Repr

/-- The observable steps of one execution of `create_product`, in source
order: the required-field check, the SKU existence query, the two numeric
coercions, the session calls (`add`, `flush`, `commit`, `rollback`). -/
inductive Event where
  | checkRequired
  | querySku
  | coercePrice
  | addProduct
  | flushSession
  | coerceQuantity
  | addInventory
  | commitSession
  | rollback
deriving DecidableEq, Repr

/-- A persistence-layer failure injected at commit time: `integrity` is an
`IntegrityError` (e.g. a uniqueness violation from a concurrent insert),
`other` any other backend exception, carrying its internal detail. -/
inductive DBFault where
  | integrity
  | other (detail : String)
deriving DecidableEq, Repr

/-- The outcome of one execution of `create_product`: the HTTP response, the
committed database afterwards, and the event trace. -/
structure CreateResult where
  resp : Response
  db : DB
  trace : List Event
deriving DecidableEq, Repr

/-- The required-field check of the source (`all(field in data for field in
required_fields)`): key presence only, values are not inspected. -/
def hasRequired (data : ReqBody) : Bool :=
  data.name.isSome && data.sku.isSome && data.price.isSome &&
    data.warehouse_id.isSome && data.initial_quantity.isSome

/-- The advisory pre-insert existence check
(`Product.query.filter_by(sku=...).first()`). -/
def skuTaken (db : DB) (v : JsonVal) : Bool :=
  db.products.any (fun p => decide (p.sku = v))

/-- The primary key `flush` assigns to the pending product. -/
def freshId (db : DB) : Nat :=
  db.products.foldr (fun p m => max p.id m) 0 + 1

/-- Shallow embedding of `create_product` (src/fixedApiEnd.py lines 5-57).
`body` is `none` when the request carries no JSON body (or an empty dict,
which fails the same check); `fault` injects what the backend does at the
final commit. -/
def create_product (body : Option ReqBody) (db : DB) (fault : Option DBFault) :
    CreateResult :=
  match body with
  | none => ⟨⟨400, .missingFields⟩, db, [.checkRequired]⟩
  | some data =>
    if hasRequired data then
      let sku := data.sku.getD .jnull
      if skuTaken db sku then
        ⟨⟨409, .skuConflict sku⟩, db, [.checkRequired, .querySku]⟩
      else
        match pyFloat (data.price.getD .jnull) with
        | none =>
            ⟨⟨400, .invalidNumber⟩, db,
              [.checkRequired, .querySku, .coercePrice, .rollback]⟩
        | some priceVal =>
            let pid := freshId db
            let product : Product :=
              ⟨pid, data.name.getD .jnull, sku, priceVal, data.warehouse_id.getD .jnull⟩
            match pyInt (data.initial_quantity.getD .jnull) with
            | none =>
                ⟨⟨400, .invalidNumber⟩, db,
                  [.checkRequired, .querySku, .coercePrice, .addProduct,
                   .flushSession, .coerceQuantity, .rollback]⟩
            | some qty =>
                let inv : Inventory := ⟨pid, data.warehouse_id.getD .jnull, qty⟩
                match fault with
                | some .integrity =>
                    ⟨⟨409, .integrityConflict⟩, db,
                      [.checkRequired, .querySku, .coercePrice, .addProduct,
                       .flushSession, .coerceQuantity, .addInventory,
                       .commitSession, .rollback]⟩
                | some (.other _) =>
                    ⟨⟨500, .unexpectedError⟩, db,
                      [.checkRequired, .querySku, .coercePrice, .addProduct,
                       .flushSession, .coerceQuantity, .addInventory,
                       .commitSession, .rollback]⟩
                | none =>
                    ⟨⟨201, .created pid⟩,
                      ⟨db.products ++ [product], db.inventories ++ [inv]⟩,
                      [.checkRequired, .querySku, .coercePrice, .addProduct,
                       .flushSession, .coerceQuantity, .addInventory,
                       .commitSession]⟩
    else ⟨⟨400, .missingFields⟩, db, [.checkRequired]⟩

/-- The session calls that issue a write to the persistence layer. -/
def isWrite : Event → Bool
  | .addProduct => true
  | .flushSession => true
  | .addInventory => true
  | .commitSession => true
  | _ => false

/-! ## The low-stock alert handler (src/low_stock_alert_APIEndpoint.py) -/

/-- A Product row as the alert handler reads it. -/
structure AProduct where
  id : Nat
  name : String
  sku : String
  product_type_id : Nat
  supplier_id : Option Nat
deriving DecidableEq, Repr

/-- A Warehouse row. -/
structure Warehouse where
  id : Nat
  name : String
  company_id : Nat
deriving DecidableEq, Repr

/-- An Inventory row as the alert handler reads it. -/
structure AInventory where
  id : Nat
  product_id : Nat
  warehouse_id : Nat
  quantity : Int
deriving DecidableEq, Repr

/-- A ProductType row. -/
structure ProductType where
  id : Nat
  low_stock_threshold : Int
deriving DecidableEq, Repr

/-- A Supplier row. -/
structure Supplier where
  id : Nat
  name : String
  contact_email : String
deriving DecidableEq, Repr

/-- A SalesActivity row; `sale_date` is a day-resolution timestamp. -/
structure SalesActivity where
  product_id : Nat
  warehouse_id : Nat
  sale_date : Int
  quantity_sold : Int
deriving DecidableEq, Repr

/-- The database the alert handler queries. -/
structure AlertDB where
  inventories : List AInventory
  products : List AProduct
  warehouses : List Warehouse
  product_types : List ProductType
  suppliers : List Supplier
  sales : List SalesActivity
deriving DecidableEq, Repr

/-- One row of the handler's joined, filtered query before grouping:
inventory, product, warehouse, product type, left-joined supplier, and one
matching SalesActivity row. -/
abbrev Row := AInventory × AProduct × Warehouse × ProductType × Option Supplier × SalesActivity

/-- LEFT OUTER JOIN semantics for `Supplier` on `Product.supplier_id ==
Supplier.id`: the matching suppliers, or a single `none` when nothing
matches (also when `supplier_id` is NULL). -/
def supplierMatches (ss : List Supplier) (sid : Option Nat) : List (Option Supplier) :=
  match ss.filter (fun s => decide (some s.id = sid)) with
  | [] => [none]
  | ms => ms.map some

/-- The joined and filtered rows of `low_stock_query` (before GROUP BY):
Inventory joined to Product, Warehouse, ProductType, left-joined Supplier
and inner-joined SalesActivity on product+warehouse, restricted to the
company, to sales on or after `since`, and to quantity at or below the
type's threshold. -/
def joinedRows (db : AlertDB) (company_id : Nat) (since : Int) : List Row :=
  db.inventories.flatMap fun i =>
    (db.products.filter fun p => decide (p.id = i.product_id)).flatMap fun p =>
      (db.warehouses.filter fun w => decide (w.id = i.warehouse_id)).flatMap fun w =>
        (db.product_types.filter fun t => decide (t.id = p.product_type_id)).flatMap fun t =>
          (supplierMatches db.suppliers p.supplier_id).flatMap fun s =>
            (db.sales.filter fun a =>
                decide (a.product_id = i.product_id) &&
                decide (a.warehouse_id = i.warehouse_id) &&
                decide (since ≤ a.sale_date) &&
                decide (w.company_id = company_id) &&
                decide (i.quantity ≤ t.low_stock_threshold)).map fun a =>
              (i, p, w, t, s, a)

/-- The GROUP BY key of `low_stock_query`: `(Inventory.id, Product.id,
Warehouse.id, ProductType.id, Supplier.id)`. -/
def rowKey (r : Row) : Nat × Nat × Nat × Nat × Option Nat :=
  (r.1.id, r.2.1.id, r.2.2.1.id, r.2.2.2.1.id, r.2.2.2.2.1.map Supplier.id)

/-- One group of the query's result: the selected entities plus the
aggregate `total_sold = sum(SalesActivity.quantity_sold)` over the group. -/
abbrev Group := AInventory × AProduct × Warehouse × ProductType × Option Supplier × Int

/-- The entities of a row without its sales record. -/
def rowEntities (r : Row) : AInventory × AProduct × Warehouse × ProductType × Option Supplier :=
  (r.1, r.2.1, r.2.2.1, r.2.2.2.1, r.2.2.2.2.1)

/-- Distinct elements of a list in order of first appearance, skipping those
already in `seen`. -/
def dedupFrom {α : Type} [DecidableEq α] (seen : List α) : List α → List α
  | [] => []
  | k :: ks =>
      if k ∈ seen then dedupFrom seen ks
      else k :: dedupFrom (k :: seen) ks

/-- The aggregate `total_sold = sum(SalesActivity.quantity_sold)` over the
rows of one group. -/
def totalSoldFor (rows : List Row) (k : Nat × Nat × Nat × Nat × Option Nat) : Int :=
  ((rows.filter fun x => decide (rowKey x = k)).map fun x => x.2.2.2.2.2.quantity_sold).sum

/-- GROUP BY over the joined rows: each distinct key, in order of first
appearance, yields one group carrying the entities of its first row and a
`total_sold` summing `quantity_sold` over every row with that key. -/
def groupRows (rows : List Row) : List Group :=
  (dedupFrom [] (rows.map rowKey)).filterMap fun k =>
    (rows.find? fun r => decide (rowKey r = k)).map fun r =>
      (r.1, r.2.1, r.2.2.1, r.2.2.2.1, r.2.2.2.2.1, totalSoldFor rows k)

/-- The grouped query result `alerts_data = low_stock_query.all()`. -/
def alertGroups (db : AlertDB) (company_id : Nat) (since : Int) : List Group :=
  groupRows (joinedRows db company_id since)

/-- One formatted alert record of the response. -/
structure Alert where
  product_id : Nat
  product_name : String
  sku : String
  warehouse_id : Nat
  warehouse_name : String
  current_stock : Int
  threshold : Int
  days_until_stockout : Option Int
  supplier_id : Option Nat
  supplier_name : Option String
  supplier_email : Option String
deriving DecidableEq, Repr

/-- The stockout estimate of the formatting loop: `None` unless
`total_sold > 0` (the source's `if total_sold and total_sold > 0` and the
redundant `avg_daily_sales > 0` collapse to this for integers), else
`int(quantity / (total_sold / 30))`.  Over exact arithmetic that truncation
toward zero of `quantity / (total_sold / 30)` is `(30 * quantity).tdiv
total_sold`, which keeps the definition kernel-computable. -/
def daysUntilStockout (quantity total_sold : Int) : Option Int :=
  if 0 < total_sold then some ((30 * quantity).tdiv total_sold) else none

/-- The formatting of one group into its alert record (the body of the
`for ... in alerts_data` loop). -/
def mkAlert (g : Group) : Alert :=
  { product_id := g.2.1.id
    product_name := g.2.1.name
    sku := g.2.1.sku
    warehouse_id := g.2.2.1.id
    warehouse_name := g.2.2.1.name
    current_stock := g.1.quantity
    threshold := g.2.2.2.1.low_stock_threshold
    days_until_stockout := daysUntilStockout g.1.quantity g.2.2.2.2.2
    supplier_id := (g.2.2.2.2.1).map Supplier.id
    supplier_name := (g.2.2.2.2.1).map Supplier.name
    supplier_email := (g.2.2.2.2.1).map Supplier.contact_email }

/-- The JSON body of the alert response. -/
structure AlertResponse where
  alerts : List Alert
  total_alerts : Nat
deriving DecidableEq, Repr

/-- Shallow embedding of `get_low_stock_alerts`
(src/low_stock_alert_APIEndpoint.py lines 11-66); `now` is the current
day-resolution timestamp, so `now - 30` is `activity_since_date`. -/
def get_low_stock_alerts (company_id : Nat) (now : Int) (db : AlertDB) :
    AlertResponse :=
  let since := now - 30
  let alerts := (alertGroups db company_id since).map mkAlert
  ⟨alerts, alerts.length⟩

/-- The GROUP BY key of a group: the ids of its selected entities. -/
def groupKey (g : Group) : Nat × Nat × Nat × Nat × Option Nat :=
  (g.1.id, g.2.1.id, g.2.2.1.id, g.2.2.2.1.id, (g.2.2.2.2.1).map Supplier.id)

/-- True when a write is issued to the session strictly before the first
occurrence of `e` in the trace. -/
def writesBefore (e : Event) (tr : List Event) : Bool :=
  (tr.takeWhile (fun x => decide (x ≠ e))).any isWrite

/-! ### Concrete instances used to exercise the theorems -/

/-- A well-formed creation request. -/
def wBody : ReqBody :=
  ⟨some (.jstr "Widget"), some (.jstr "SKU-1"), some (.jnum 19),
    some (.jnum 1), some (.jnum 10)⟩

/-- The empty database. -/
def wDB0 : DB := ⟨[], []⟩

/-- A database already holding a product with SKU "SKU-1". -/
def wDBDup : DB :=
  ⟨[⟨7, .jstr "Older", .jstr "SKU-1", 5, .jnum 1⟩], [⟨7, .jnum 1, 3⟩]⟩

/-- A request whose five keys are all present but whose `price` is null. -/
def wBodyNullPrice : ReqBody :=
  ⟨some (.jstr "Widget"), some (.jstr "SKU-2"), some .jnull,
    some (.jnum 1), some (.jnum 10)⟩

/-- A request missing the `sku` key. -/
def wBodyMissing : ReqBody :=
  ⟨some (.jstr "Widget"), none, some (.jnum 19), some (.jnum 1), some (.jnum 10)⟩

/-- An alert-handler database realising the spec's worked example: quantity
5, threshold 10, 60 units sold in the trailing window (`now` = 100). -/
def wAlertDB : AlertDB :=
  { inventories := [⟨1, 1, 1, 5⟩]
    products := [⟨1, "P", "S", 1, none⟩]
    warehouses := [⟨1, "W", 1⟩]
    product_types := [⟨1, 10⟩]
    suppliers := []
    sales := [⟨1, 1, 99, 60⟩] }

/-- The one group `wAlertDB` yields for company 1 at `now` = 100. -/
def wGroup : Group :=
  (⟨1, 1, 1, 5⟩, ⟨1, "P", "S", 1, none⟩, ⟨1, "W", 1⟩, ⟨1, 10⟩, none, 60)

/-! ### Supporting lemmas about the alert query -/

theorem mem_joinedRows {db : AlertDB} {cid : Nat} {since : Int}
    {i : AInventory} {p : AProduct} {w : Warehouse} {t : ProductType}
    {s : Option Supplier} {a : SalesActivity} :
    (i, p, w, t, s, a) ∈ joinedRows db cid since ↔
      i ∈ db.inventories ∧ p ∈ db.products ∧ w ∈ db.warehouses ∧
      t ∈ db.product_types ∧ s ∈ supplierMatches db.suppliers p.supplier_id ∧
      a ∈ db.sales ∧ p.id = i.product_id ∧ w.id = i.warehouse_id ∧
      t.id = p.product_type_id ∧ a.product_id = i.product_id ∧
      a.warehouse_id = i.warehouse_id ∧ since ≤ a.sale_date ∧
      w.company_id = cid ∧ i.quantity ≤ t.low_stock_threshold := by
  simp only [joinedRows, List.mem_flatMap, List.mem_map, List.mem_filter,
    Bool.and_eq_true, decide_eq_true_eq, Prod.mk.injEq]
  constructor
  · rintro ⟨i', hi', p', ⟨hp', hpid⟩, w', ⟨hw', hwid⟩, t', ⟨ht', htid⟩, s', hs', a',
      ⟨ha', ⟨⟨⟨hapid, hawid⟩, hdate⟩, hcompany⟩, hqty⟩, hii, hpp, hww, htt, hss, haa⟩
    subst hii hpp hww htt hss haa
    exact ⟨hi', hp', hw', ht', hs', ha', hpid, hwid, htid, hapid, hawid, hdate, hcompany, hqty⟩
  · rintro ⟨hi, hp, hw, ht, hs, ha, hpid, hwid, htid, hapid, hawid, hdate, hcompany, hqty⟩
    exact ⟨i, hi, p, ⟨hp, hpid⟩, w, ⟨hw, hwid⟩, t, ⟨ht, htid⟩, s, hs, a,
      ⟨ha, ⟨⟨⟨hapid, hawid⟩, hdate⟩, hcompany⟩, hqty⟩, rfl, rfl, rfl, rfl, rfl, rfl⟩

theorem supplierMatches_ne_nil (ss : List Supplier) (sid : Option Nat) :
    ∃ x, x ∈ supplierMatches ss sid := by
  unfold supplierMatches
  rcases h : ss.filter (fun s => decide (some s.id = sid)) with _ | ⟨m, ms⟩ <;>
    rw [h]
  · exact ⟨none, List.mem_singleton.mpr rfl⟩
  · exact ⟨some m, List.mem_map.mpr ⟨m, List.mem_cons_self m ms, rfl⟩⟩

theorem none_mem_supplierMatches {ss : List Supplier} {sid : Option Nat}
    (h : ∀ s ∈ ss, some s.id ≠ sid) : supplierMatches ss sid = [none] := by
  unfold supplierMatches
  rw [List.filter_eq_nil_iff.mpr (by simpa using h)]

theorem mem_dedupFrom {α : Type} [DecidableEq α] {l : List α} {x : α} :
    ∀ {seen : List α}, (x ∈ dedupFrom seen l ↔ x ∈ l ∧ x ∉ seen) := by
  induction l with
  | nil => intro seen; simp [dedupFrom]
  | cons k ks ih =>
      intro seen
      by_cases hk : k ∈ seen
      · rw [dedupFrom, if_pos hk, ih]
        constructor
        · rintro ⟨hx, hxs⟩; exact ⟨List.mem_cons_of_mem _ hx, hxs⟩
        · rintro ⟨hx, hxs⟩
          rcases List.mem_cons.mp hx with rfl | hx
          · exact absurd hk hxs
          · exact ⟨hx, hxs⟩
      · rw [dedupFrom, if_neg hk]
        constructor
        · intro hx
          rcases List.mem_cons.mp hx with rfl | hx
          · exact ⟨List.mem_cons_self _ _, hk⟩
          · obtain ⟨h1, h2⟩ := ih.mp hx
            exact ⟨List.mem_cons_of_mem _ h1,
              fun hs => h2 (List.mem_cons_of_mem _ hs)⟩
        · rintro ⟨hx, hxs⟩
          rcases List.mem_cons.mp hx with rfl | hx
          · exact List.mem_cons_self _ _
          · by_cases hxk : x = k
            · subst hxk; exact List.mem_cons_self _ _
            · exact List.mem_cons_of_mem _
                (ih.mpr ⟨hx, fun hs => (List.mem_cons.mp hs).elim hxk hxs⟩)

theorem of_mem_groupRows {rows : List Row} {g : Group} (hg : g ∈ groupRows rows) :
    ∃ r ∈ rows, g.1 = r.1 ∧ g.2.1 = r.2.1 ∧ g.2.2.1 = r.2.2.1 ∧
      g.2.2.2.1 = r.2.2.2.1 ∧ g.2.2.2.2.1 = r.2.2.2.2.1 ∧
      g.2.2.2.2.2 = totalSoldFor rows (rowKey r) := by
  simp only [groupRows, List.mem_filterMap] at hg
  obtain ⟨k, _, hmap⟩ := hg
  obtain ⟨r, hfind, hgr⟩ := Option.map_eq_some'.mp hmap
  have hr : r ∈ rows := List.mem_of_find?_eq_some hfind
  have hk : rowKey r = k := by simpa using List.find?_some hfind
  refine ⟨r, hr, ?_⟩
  subst hgr
  simp [hk]

theorem exists_group_of_mem_rows {rows : List Row} {r : Row} (hr : r ∈ rows) :
    ∃ g ∈ groupRows rows, groupKey g = rowKey r := by
  have hmem : rowKey r ∈ dedupFrom [] (rows.map rowKey) :=
    mem_dedupFrom.mpr ⟨List.mem_map.mpr ⟨r, hr, rfl⟩, List.not_mem_nil _⟩
  have hfind : (rows.find? fun x => decide (rowKey x = rowKey r)).isSome :=
    List.find?_isSome.mpr ⟨r, hr, by simp⟩
  obtain ⟨r', hr'⟩ := Option.isSome_iff_exists.mp hfind
  have hk : rowKey r' = rowKey r := by simpa using List.find?_some hr'
  refine ⟨(r'.1, r'.2.1, r'.2.2.1, r'.2.2.2.1, r'.2.2.2.2.1,
    totalSoldFor rows (rowKey r)), ?_, ?_⟩
  · simp only [groupRows, List.mem_filterMap]
    exact ⟨rowKey r, hmem, by rw [hr']; rfl⟩
  · simpa [groupKey, rowKey] using congrArg (fun z => z) hk

theorem tdiv_thirty_eq_floor {q t : ℤ} (hq : 0 ≤ q) (ht : 0 < t) :
    (30 * q).tdiv t = ⌊(q : ℚ) / ((t : ℚ) / 30)⌋ := by
  have hcast : ((t.toNat : ℕ) : ℚ) = (t : ℚ) := by
    rw [← Int.cast_natCast, Int.toNat_of_nonneg ht.le]
  have htq : ((t : ℚ)) ≠ 0 := by positivity
  have h1 : ((q : ℚ) / ((t : ℚ) / 30)) = (((30 * q : ℤ) : ℚ)) / ((t.toNat : ℕ) : ℚ) := by
    rw [hcast]
    push_cast
    field_simp
    ring
  rw [h1, Rat.floor_intCast_div_natCast, Int.toNat_of_nonneg ht.le,
    Int.tdiv_eq_ediv (by positivity) ht.le]

/-! ### Claims about the creation handler -/

/-- C1: a creation request that succeeds (HTTP 201) persists exactly one new
Product row and exactly one new Inventory row, the Inventory row's
`product_id` equals the new Product's id and its `warehouse_id` equals the
request's `warehouse_id`, the response body carries the new product's
identity, and in every non-201 outcome the database is unchanged (so both
rows persist or neither does). -/
theorem claim_C1 (data : ReqBody) (db : DB) (fault : Option DBFault) :
    ((create_product (some data) db fault).resp.status = 201 →
      ∃ p i,
        (create_product (some data) db fault).db.products = db.products ++ [p] ∧
        (create_product (some data) db fault).db.inventories = db.inventories ++ [i] ∧
        i.product_id = p.id ∧
        data.warehouse_id = some i.warehouse_id ∧
        (create_product (some data) db fault).resp.body = RespBody.created p.id) ∧
    ((create_product (some data) db fault).resp.status ≠ 201 →
      (create_product (some data) db fault).db = db) := by
  by_cases h1 : hasRequired data = true
  case neg => simp [create_product, h1]
  case pos =>
    by_cases h2 : skuTaken db (data.sku.getD .jnull) = true
    · simp [create_product, h1, h2]
    · rcases h3 : pyFloat (data.price.getD .jnull) with _ | priceVal
      · simp [create_product, h1, h2, h3]
      · rcases h4 : pyInt (data.initial_quantity.getD .jnull) with _ | qty
        · simp [create_product, h1, h2, h3, h4]
        · rcases fault with _ | f
          · rcases hwv : data.warehouse_id with _ | wv
            · rw [hasRequired, hwv] at h1; simp at h1
            · have hres : create_product (some data) db none =
                ⟨⟨201, .created (freshId db)⟩,
                  ⟨db.products ++ [⟨freshId db, data.name.getD .jnull, data.sku.getD .jnull,
                    priceVal, data.warehouse_id.getD .jnull⟩],
                   db.inventories ++ [⟨freshId db, data.warehouse_id.getD .jnull, qty⟩]⟩,
                  [.checkRequired, .querySku, .coercePrice, .addProduct,
                   .flushSession, .coerceQuantity, .addInventory, .commitSession]⟩ := by
                simp [create_product, h1, h2, h3, h4]
              rw [hres]
              refine ⟨fun _ => ⟨_, _, rfl, rfl, rfl, ?_, rfl⟩, fun hne => absurd rfl hne⟩
              rw [hwv]
              rfl
          · rcases f with _ | detail <;> simp [create_product, h1, h2, h3, h4]

/-- C1 witness: a concrete successful creation. -/
theorem claim_C1_witness :
    ∃ p i,
      (create_product (some wBody) wDB0 none).db.products = wDB0.products ++ [p] ∧
      (create_product (some wBody) wDB0 none).db.inventories = wDB0.inventories ++ [i] ∧
      i.product_id = p.id ∧
      wBody.warehouse_id = some i.warehouse_id ∧
      (create_product (some wBody) wDB0 none).resp.body = RespBody.created p.id :=
  (claim_C1 wBody wDB0 none).1 (by decide)

/-- C4: a creation request whose SKU already exists is rejected with HTTP
409 by the advisory pre-insert check, and a uniqueness violation raised by
the backend at commit time is likewise answered with HTTP 409; in both
cases no new Product or Inventory row is persisted. -/
theorem claim_C4 (data : ReqBody) (db : DB) (fault : Option DBFault)
    (hreq : hasRequired data = true) :
    (skuTaken db (data.sku.getD .jnull) = true →
      (create_product (some data) db fault).resp.status = 409 ∧
      (create_product (some data) db fault).db = db) ∧
    ((pyFloat (data.price.getD .jnull)).isSome = true →
      (pyInt (data.initial_quantity.getD .jnull)).isSome = true →
      fault = some DBFault.integrity →
      (create_product (some data) db fault).resp.status = 409 ∧
      (create_product (some data) db fault).db = db) := by
  constructor
  · intro h2
    simp [create_product, hreq, h2]
  · intro hp hq hf
    subst hf
    by_cases h2 : skuTaken db (data.sku.getD .jnull) = true
    · simp [create_product, hreq, h2]
    · obtain ⟨pv, hpv⟩ := Option.isSome_iff_exists.mp hp
      obtain ⟨qv, hqv⟩ := Option.isSome_iff_exists.mp hq
      simp [create_product, hreq, h2, hpv, hqv]

/-- C4 witness: a duplicate SKU caught by the pre-check, and a commit-time
integrity violation, both at concrete inputs. -/
theorem claim_C4_witness :
    ((create_product (some wBody) wDBDup none).resp.status = 409 ∧
      (create_product (some wBody) wDBDup none).db = wDBDup) ∧
    ((create_product (some wBody) wDB0 (some DBFault.integrity)).resp.status = 409 ∧
      (create_product (some wBody) wDB0 (some DBFault.integrity)).db = wDB0) :=
  ⟨(claim_C4 wBody wDBDup none (by decide)).1 (by decide),
    (claim_C4 wBody wDB0 (some DBFault.integrity) (by decide)).2
      (by decide) (by decide) rfl⟩

/-- C5 counterexample: in a concrete successful execution the product add
and the session flush are issued before the coercion of
`initial_quantity`, so writes do precede the successful coercion of both
numeric fields, refuting the claim as stated. -/
theorem claim_C5_counterexample :
    writesBefore Event.coerceQuantity (create_product (some wBody) wDB0 none).trace = true ∧
    (create_product (some wBody) wDB0 none).resp.status = 201 := by
  decide

/-- C5 as amended: the required-field validation, the SKU pre-check and the
coercion of `price` all happen before any write is issued to the session;
the coercion of `initial_quantity`, however, happens only after the product
add and flush, and when it (or the price coercion) fails the transaction is
rolled back, so the database is unchanged. -/
theorem claim_C5 (body : Option ReqBody) (db : DB) (fault : Option DBFault) :
    writesBefore Event.coercePrice (create_product body db fault).trace = false ∧
    ((create_product body db fault).resp.body = RespBody.invalidNumber →
      (create_product body db fault).db = db) := by
  rcases body with _ | data
  · exact ⟨rfl, fun _ => rfl⟩
  · by_cases h1 : hasRequired data = true
    case neg => simp [create_product, h1, writesBefore, isWrite]
    case pos =>
      by_cases h2 : skuTaken db (data.sku.getD .jnull) = true
      · simp [create_product, h1, h2, writesBefore, isWrite]
      · rcases h3 : pyFloat (data.price.getD .jnull) with _ | pv
        · simp [create_product, h1, h2, h3, writesBefore, isWrite]
        · rcases h4 : pyInt (data.initial_quantity.getD .jnull) with _ | qv
          · simp [create_product, h1, h2, h3, h4, writesBefore, isWrite]
          · rcases fault with _ | f
            · simp [create_product, h1, h2, h3, h4, writesBefore, isWrite]
            · rcases f with _ | detail <;>
                simp [create_product, h1, h2, h3, h4, writesBefore, isWrite]

/-- C5 witness: the amended statement at a concrete input on which the
quantity coercion fails after the flush. -/
theorem claim_C5_witness :
    writesBefore Event.coercePrice
      (create_product (some wBodyNullPrice) wDB0 none).trace = false ∧
    (create_product (some wBodyNullPrice) wDB0 none).db = wDB0 :=
  ⟨(claim_C5 (some wBodyNullPrice) wDB0 none).1,
    (claim_C5 (some wBodyNullPrice) wDB0 none).2 (by decide)⟩

/-- C6: when validation passed and the SKU is free but `price` or
`initial_quantity` cannot be coerced to its numeric type, the handler
returns HTTP 400 with the invalid-data-type error and the database is
unchanged (the partial write is rolled back). -/
theorem claim_C6 (data : ReqBody) (db : DB) (fault : Option DBFault)
    (hreq : hasRequired data = true)
    (hsku : skuTaken db (data.sku.getD .jnull) = false)
    (hbad : pyFloat (data.price.getD .jnull) = none ∨
      pyInt (data.initial_quantity.getD .jnull) = none) :
    (create_product (some data) db fault).resp = ⟨400, RespBody.invalidNumber⟩ ∧
    (create_product (some data) db fault).db = db := by
  have h2 : ¬ (skuTaken db (data.sku.getD .jnull) = true) := by simp [hsku]
  rcases h3 : pyFloat (data.price.getD .jnull) with _ | pv
  · simp [create_product, hreq, h2, h3]
  · rcases hbad with hb | hb
    · rw [h3] at hb; cases hb
    · simp [create_product, hreq, h2, h3, hb]

/-- C6 witness: a null price at a concrete input. -/
theorem claim_C6_witness :
    (create_product (some wBodyNullPrice) wDB0 none).resp =
      ⟨400, RespBody.invalidNumber⟩ ∧
    (create_product (some wBodyNullPrice) wDB0 none).db = wDB0 :=
  claim_C6 wBodyNullPrice wDB0 none (by decide) (by decide) (Or.inl (by decide))

/-- C7: a request with no JSON body, or whose body misses a required key,
is answered with HTTP 400 "Missing required fields" and the database is
unchanged. -/
theorem claim_C7 (body : Option ReqBody) (db : DB) (fault : Option DBFault)
    (h : body = none ∨ ∃ data, body = some data ∧ hasRequired data = false) :
    (create_product body db fault).resp = ⟨400, RespBody.missingFields⟩ ∧
    (create_product body db fault).db = db := by
  rcases h with rfl | ⟨data, rfl, hdata⟩
  · exact ⟨rfl, rfl⟩
  · simp [create_product, hdata]

/-- C7 witness: a body missing its `sku` key, at a concrete input. -/
theorem claim_C7_witness :
    (create_product (some wBodyMissing) wDB0 none).resp =
      ⟨400, RespBody.missingFields⟩ ∧
    (create_product (some wBodyMissing) wDB0 none).db = wDB0 :=
  claim_C7 (some wBodyMissing) wDB0 none (Or.inr ⟨wBodyMissing, rfl, by decide⟩)

/-- C8: a persistence failure at commit other than an integrity violation
is answered with HTTP 500 and a fixed generic error body, the transaction
is rolled back, the database is unchanged, and the response does not depend
on the failure's internal detail. -/
theorem claim_C8 (data : ReqBody) (db : DB) (detail : String)
    (hreq : hasRequired data = true)
    (hsku : skuTaken db (data.sku.getD .jnull) = false)
    (hp : (pyFloat (data.price.getD .jnull)).isSome = true)
    (hq : (pyInt (data.initial_quantity.getD .jnull)).isSome = true) :
    (create_product (some data) db (some (DBFault.other detail))).resp =
      ⟨500, RespBody.unexpectedError⟩ ∧
    (create_product (some data) db (some (DBFault.other detail))).db = db ∧
    Event.rollback ∈ (create_product (some data) db (some (DBFault.other detail))).trace ∧
    ∀ d2 : String, create_product (some data) db (some (DBFault.other detail)) =
      create_product (some data) db (some (DBFault.other d2)) := by
  have h2 : ¬ (skuTaken db (data.sku.getD .jnull) = true) := by simp [hsku]
  obtain ⟨pv, hpv⟩ := Option.isSome_iff_exists.mp hp
  obtain ⟨qv, hqv⟩ := Option.isSome_iff_exists.mp hq
  refine ⟨?_, ?_, ?_, fun d2 => ?_⟩ <;> simp [create_product, hreq, h2, hpv, hqv]

/-- C8 witness: an injected non-integrity backend failure at a concrete
input. -/
theorem claim_C8_witness :
    (create_product (some wBody) wDB0 (some (DBFault.other "boom"))).resp =
      ⟨500, RespBody.unexpectedError⟩ ∧
    (create_product (some wBody) wDB0 (some (DBFault.other "boom"))).db = wDB0 ∧
    Event.rollback ∈ (create_product (some wBody) wDB0 (some (DBFault.other "boom"))).trace ∧
    ∀ d2 : String, create_product (some wBody) wDB0 (some (DBFault.other "boom")) =
      create_product (some wBody) wDB0 (some (DBFault.other d2)) :=
  claim_C8 wBody wDB0 "boom" (by decide) (by decide) (by decide) (by decide)

/-- C10 (implicit): the required-field validation checks key presence only,
so a body whose five required keys are all present — whatever their values,
null included — passes the missing-field check, never draws the
"Missing required fields" response, and control reaches the SKU lookup
(after which the value flows into the lookup or the numeric coercions). -/
theorem claim_C10 (data : ReqBody) (db : DB) (fault : Option DBFault)
    (hn : data.name.isSome = true) (hs : data.sku.isSome = true)
    (hp : data.price.isSome = true) (hw : data.warehouse_id.isSome = true)
    (hq : data.initial_quantity.isSome = true) :
    hasRequired data = true ∧
    (create_product (some data) db fault).resp.body ≠ RespBody.missingFields ∧
    Event.querySku ∈ (create_product (some data) db fault).trace := by
  have hreq : hasRequired data = true := by
    simp [hasRequired, hn, hs, hp, hw, hq]
  refine ⟨hreq, ?_⟩
  by_cases h2 : skuTaken db (data.sku.getD .jnull) = true
  · simp [create_product, hreq, h2]
  · rcases h3 : pyFloat (data.price.getD .jnull) with _ | pv
    · simp [create_product, hreq, h2, h3]
    · rcases h4 : pyInt (data.initial_quantity.getD .jnull) with _ | qv
      · simp [create_product, hreq, h2, h3, h4]
      · rcases fault with _ | f
        · simp [create_product, hreq, h2, h3, h4]
        · rcases f with _ | detail <;> simp [create_product, hreq, h2, h3, h4]

/-- C10 witness: all five keys present with a null `price`: the
missing-field check passes and the SKU lookup runs. -/
theorem claim_C10_witness :
    hasRequired wBodyNullPrice = true ∧
    (create_product (some wBodyNullPrice) wDB0 none).resp.body ≠ RespBody.missingFields ∧
    Event.querySku ∈ (create_product (some wBodyNullPrice) wDB0 none).trace :=
  claim_C10 wBodyNullPrice wDB0 none (by decide) (by decide) (by decide)
    (by decide) (by decide)

/-! ### Claims about the alert handler -/

/-- C2: a product/warehouse pair appears in the alert list exactly when the
database joins an inventory row to a product, a warehouse of the requested
company and a product type with quantity at or below the threshold, and at
least one SalesActivity row for that product and warehouse falls in the
trailing 30-day window; so an item with no recent sale, and an item of
another company's warehouse, never appear. -/
theorem claim_C2 (cid : Nat) (now : Int) (db : AlertDB) (pid wid : Nat) :
    (∃ a ∈ (get_low_stock_alerts cid now db).alerts,
      a.product_id = pid ∧ a.warehouse_id = wid) ↔
    (∃ i ∈ db.inventories, ∃ p ∈ db.products, ∃ w ∈ db.warehouses,
      ∃ t ∈ db.product_types,
        i.product_id = pid ∧ i.warehouse_id = wid ∧ p.id = pid ∧ w.id = wid ∧
        t.id = p.product_type_id ∧ w.company_id = cid ∧
        i.quantity ≤ t.low_stock_threshold ∧
        ∃ s ∈ db.sales, s.product_id = pid ∧ s.warehouse_id = wid ∧
          now - 30 ≤ s.sale_date) := by
  constructor
  · rintro ⟨a, ha, hapid, hawid⟩
    simp only [get_low_stock_alerts] at ha
    obtain ⟨g, hg, rfl⟩ := List.mem_map.mp ha
    obtain ⟨r, hr, h1, h2, h3, h4, h5, h6⟩ := of_mem_groupRows hg
    obtain ⟨i, p, w, t, s, sa⟩ := r
    obtain ⟨hi, hp, hw, ht, _, hsa, hppid, hwwid, htid, hsapid, hsawid, hdate,
      hcomp, hqty⟩ := mem_joinedRows.mp hr
    simp only [mkAlert] at hapid hawid
    rw [h2] at hapid
    rw [h3] at hawid
    refine ⟨i, hi, p, hp, w, hw, t, ht, ?_, ?_, ?_, ?_, htid, hcomp, hqty,
      sa, hsa, ?_, ?_, hdate⟩
    · rw [← hppid, hapid]
    · rw [← hwwid, hawid]
    · exact hapid
    · exact hawid
    · rw [hsapid, ← hppid, hapid]
    · rw [hsawid, ← hwwid, hawid]
  · rintro ⟨i, hi, p, hp, w, hw, t, ht, hipid, hiwid, hppid, hwwid, htid,
      hcomp, hqty, sa, hsa, hsapid, hsawid, hdate⟩
    obtain ⟨s, hs⟩ := supplierMatches_ne_nil db.suppliers p.supplier_id
    have hrow : (i, p, w, t, s, sa) ∈ joinedRows db cid (now - 30) :=
      mem_joinedRows.mpr ⟨hi, hp, hw, ht, hs, hsa, by rw [hppid, hipid],
        by rw [hwwid, hiwid], htid, by rw [hsapid, hipid],
        by rw [hsawid, hiwid], hdate, hcomp, hqty⟩
    obtain ⟨g, hg, hkey⟩ := exists_group_of_mem_rows hrow
    refine ⟨mkAlert g, ?_, ?_, ?_⟩
    · simp only [get_low_stock_alerts]
      exact List.mem_map.mpr ⟨g, hg, rfl⟩
    · have := congrArg (fun k : Nat × Nat × Nat × Nat × Option Nat => k.2.1) hkey
      simpa [mkAlert, groupKey, rowKey, hppid] using this
    · have := congrArg (fun k : Nat × Nat × Nat × Nat × Option Nat => k.2.2.1) hkey
      simpa [mkAlert, groupKey, rowKey, hwwid] using this

/-- C3: under the schema invariant that inventory quantities are
non-negative, every emitted alert group whose windowed `total_sold` is
positive carries `days_until_stockout = floor(quantity / (total_sold /
30))`, and every group with non-positive `total_sold` carries null. -/
theorem claim_C3 (cid : Nat) (now : Int) (db : AlertDB)
    (hpos : ∀ i ∈ db.inventories, 0 ≤ i.quantity) :
    ∀ g ∈ alertGroups db cid (now - 30),
      (0 < g.2.2.2.2.2 →
        (mkAlert g).days_until_stockout =
          some ⌊(g.1.quantity : ℚ) / ((g.2.2.2.2.2 : ℚ) / 30)⌋) ∧
      (¬ 0 < g.2.2.2.2.2 → (mkAlert g).days_until_stockout = none) := by
  intro g hg
  obtain ⟨r, hr, h1, _, _, _, _, _⟩ := of_mem_groupRows hg
  have hi : g.1 ∈ db.inventories := by
    obtain ⟨i, p, w, t, s, sa⟩ := r
    rw [h1]
    exact (mem_joinedRows.mp hr).1
  have hq : 0 ≤ g.1.quantity := hpos _ hi
  constructor
  · intro htot
    simp only [mkAlert, daysUntilStockout, if_pos htot]
    rw [tdiv_thirty_eq_floor hq htot]
  · intro htot
    simp [mkAlert, daysUntilStockout, htot]

/-- C3 witness: the spec's worked example — quantity 5, 60 units sold in
the window — yields `days_until_stockout = 2`. -/
theorem claim_C3_witness :
    wGroup ∈ alertGroups wAlertDB 1 (100 - 30) ∧
    (mkAlert wGroup).days_until_stockout = some 2 := by
  have h := (claim_C3 1 100 wAlertDB (by decide) wGroup (by decide)).1 (by decide)
  refine ⟨by decide, ?_⟩
  rw [h]
  norm_num [wGroup]

/-- C9: the response carries the full, unpaginated alert list and a
`total_alerts` equal to its length; every group's formatted record is in
the list; and when no supplier row is linked to the group's product all
three supplier fields are null. -/
theorem claim_C9 (cid : Nat) (now : Int) (db : AlertDB) :
    (get_low_stock_alerts cid now db).alerts =
      (alertGroups db cid (now - 30)).map mkAlert ∧
    (get_low_stock_alerts cid now db).total_alerts =
      (get_low_stock_alerts cid now db).alerts.length ∧
    ∀ g ∈ alertGroups db cid (now - 30),
      mkAlert g ∈ (get_low_stock_alerts cid now db).alerts ∧
      ((∀ s ∈ db.suppliers, some s.id ≠ g.2.1.supplier_id) →
        (mkAlert g).supplier_id = none ∧ (mkAlert g).supplier_name = none ∧
        (mkAlert g).supplier_email = none) := by
  refine ⟨rfl, rfl, fun g hg => ⟨List.mem_map.mpr ⟨g, hg, rfl⟩, fun hnone => ?_⟩⟩
  obtain ⟨r, hr, _, h2, _, _, h5, _⟩ := of_mem_groupRows hg
  obtain ⟨i, p, w, t, s, sa⟩ := r
  have hs : s ∈ supplierMatches db.suppliers p.supplier_id :=
    (mem_joinedRows.mp hr).2.2.2.2.1
  have hanon : supplierMatches db.suppliers p.supplier_id = [none] := by
    apply none_mem_supplierMatches
    intro s' hs'
    have h' := hnone s' hs'
    rw [h2] at h'
    exact h'
  rw [hanon] at hs
  have hsnone : s = none := List.mem_singleton.mp hs
  simp [mkAlert, h5, hsnone]

/-- C9 witness: the worked example's product has no linked supplier and its
alert record carries three null supplier fields. -/
theorem claim_C9_witness :
    mkAlert wGroup ∈ (get_low_stock_alerts 1 100 wAlertDB).alerts ∧
    (mkAlert wGroup).supplier_id = none ∧
    (mkAlert wGroup).supplier_name = none ∧
    (mkAlert wGroup).supplier_email = none := by
  have h := (claim_C9 1 100 wAlertDB).2.2 wGroup (by decide)
  exact ⟨h.1, h.2 (by decide)⟩

end Stockflow
